import Mathlib

/-!
Verification of the matrix-to-quotation transform of the `ival` repository
(`src/lib/transform.ts`).

The TypeScript core is shallowly embedded:
* JavaScript numbers are modelled as exact rationals (`ℚ`); `toFixed(2)`
  followed by `parseFloat` is modelled as rounding to the nearest multiple of
  `1/100`, ties toward `+∞` (the tie-break `toFixed` specifies).
* A `RawRow` (a JS object produced by `sheet_to_json`) is an association list
  from header strings to cell values; a missing key is JS `undefined` and is
  modelled by a `none` lookup.  A cell value is a string or a (finite) number.
* Warning accumulation (a mutated array in TS) is explicit list-append state.
-/

set_option maxRecDepth 4000

/-- A spreadsheet cell value: `string | number` (absence is `Option.none` at
lookup).  Mirrors the `unknown` cell values actually produced by the adapter. -/
inductive CellValue where
  | str : String → CellValue
  | num : ℚ → CellValue
deriving DecidableEq, Repr

/-- TS `type RawRow = Record<string, unknown>` — an object, i.e. an ordered
association list from header names to cell values. -/
abbrev RawRow := List (String × CellValue)

/-- JS property access `row[key]`: the value at the first matching key,
`none` when the key is absent (JS `undefined`). -/
def lookupCell (row : RawRow) (key : String) : Option CellValue :=
  (row.find? (fun kv => kv.1 == key)).map (fun kv => kv.2)

/-- JS `a ?? b` on possibly-absent values. -/
def firstSome (a b : Option CellValue) : Option CellValue :=
  match a with
  | some v => some v
  | none => b

/-- JS `String.prototype.trim()`: strip whitespace from both ends. -/
def jsTrim (s : String) : String :=
  String.mk (((s.toList.dropWhile Char.isWhitespace).reverse.dropWhile
    Char.isWhitespace).reverse)

/-- TS `header.replace(/\s+/g, '').toLowerCase()` (transform.ts line 53). -/
def normalizeHeader (header : String) : String :=
  String.mk ((header.toList.filter (fun c => !c.isWhitespace)).map Char.toLower)

/-- TS `trimmed.replace(/,/g, '')` — strip every comma. -/
def removeCommas (s : String) : String :=
  String.mk (s.toList.filter (fun c => !(c == ',')))

/-- Value of a decimal digit string (most significant first). -/
def digitsToNat (ds : List Char) : Nat :=
  ds.foldl (fun n c => 10 * n + (c.toNat - 48)) 0

/-- Split a character list into its leading digits and the rest. -/
def spanDigits (cs : List Char) : List Char × List Char :=
  (cs.takeWhile Char.isDigit, cs.dropWhile Char.isDigit)

/-- Optional leading sign: returns (isNegative, rest). -/
def parseSign : List Char → Bool × List Char
  | '-' :: cs => (true, cs)
  | '+' :: cs => (false, cs)
  | cs => (false, cs)

/-- Computes `10 ^ n` in `ℚ`, by plain recursion (kernel-evaluable). -/
def pow10 : Nat → ℚ
  | 0 => 1
  | n + 1 => 10 * pow10 n

/-- Exponent part of `Number.parseFloat`: `e`/`E`, optional sign, digits.
If no digit follows, the exponent marker is not part of the parsed prefix
and contributes a factor of `10 ^ 0`. -/
def parseExpTail (rest : List Char) : Int :=
  match parseSign rest with
  | (eneg, rest1) =>
    match spanDigits rest1 with
    | (eds, _) =>
      if eds.isEmpty then 0
      else if eneg then -(digitsToNat eds : Int) else (digitsToNat eds : Int)

/-- Dispatch on the `e`/`E` marker for the exponent of a float literal. -/
def parseExponent (cs : List Char) : Int :=
  match cs with
  | 'e' :: rest => parseExpTail rest
  | 'E' :: rest => parseExpTail rest
  | _ => 0

/-- JS `Number.parseFloat` on an (already trimmed) string: longest valid prefix
`[sign] digits [. digits] [e [sign] digits]`; `none` when no digit is found
(JS `NaN`, and also the non-finite `Infinity` results, which `parseNumber`
rejects anyway). Trailing garbage is ignored. -/
def parseFloatQ (s : String) : Option ℚ :=
  match parseSign s.toList with
  | (neg, cs1) =>
    match spanDigits cs1 with
    | (ipart, cs2) =>
      match (match cs2 with
             | '.' :: rest => spanDigits rest
             | _ => (([] : List Char), cs2)) with
      | (fpart, cs3) =>
        if ipart.isEmpty && fpart.isEmpty then none
        else
          let mantissa : ℚ :=
            (digitsToNat ipart : ℚ) + (digitsToNat fpart : ℚ) / pow10 fpart.length
          let e := parseExponent cs3
          let magnitude :=
            if 0 ≤ e then mantissa * pow10 e.toNat else mantissa / pow10 (-e).toNat
          some (if neg then -magnitude else magnitude)

/-- TS `parseNumber` (transform.ts lines 56-69): `null`/`undefined` → `null`;
finite numbers pass through; strings are trimmed (empty → `null`), commas
stripped, then parsed as a float. -/
def parseNumber : Option CellValue → Option ℚ
  | none => none
  | some (.num q) => some q
  | some (.str s) =>
    let trimmed := jsTrim s
    if trimmed.isEmpty then none
    else parseFloatQ (removeCommas trimmed)

/-- JS `Number.parseFloat(x.toFixed(2))`: round to 2 decimal places, ties toward
`+∞` (`toFixed` picks the larger candidate on a tie). -/
def round2 (q : ℚ) : ℚ :=
  ((⌊q * 100 + 1 / 2⌋ : ℤ) : ℚ) / 100

/-- One flattened model+color output record (transform.ts lines 4-11). -/
structure QuotationRow where
  modelNo : String
  categoryName : String
  color : String
  qty : ℚ
  priceUSD : ℚ
  amountUSD : ℚ
deriving DecidableEq, Repr

/-- TS `TransformOptions` (transform.ts lines 13-15); `defaultPrice?` is optional. -/
structure TransformOptions where
  defaultPrice : Option ℚ := none
deriving DecidableEq, Repr

/-- The totals block of a `TransformResult`. -/
structure Totals where
  totalQty : ℚ
  totalAmount : ℚ
deriving DecidableEq, Repr

/-- TS `TransformResult` (transform.ts lines 17-24). -/
structure TransformResult where
  rows : List QuotationRow
  totals : Totals
  warnings : List String
deriving DecidableEq, Repr

/-- The three `TransformErrorCode` values (transform.ts lines 26-29). -/
inductive TransformErrorCode where
  | INVALID_TEMPLATE
  | PARSE_ERROR
  | EMPTY_RESULT
deriving DecidableEq, Repr

/-- TS `TransformError` (transform.ts lines 31-39): message plus code. -/
structure TransformError where
  message : String
  code : TransformErrorCode
deriving DecidableEq, Repr

/-- TS `DEFAULT_PRICE = 0.8` (transform.ts line 41). -/
def DEFAULT_PRICE : ℚ := 0.8

/-- TS `FIXED_COLUMNS` (transform.ts lines 42-49), as a list of normalized names. -/
def FIXED_COLUMNS : List String :=
  ["model", "qty", "price", "amount,usd", "amount", "amountusd"]

/-- TS `options?.defaultPrice ?? DEFAULT_PRICE` (transform.ts line 111). -/
def resolveDefaultPrice (options : Option TransformOptions) : ℚ :=
  (options.bind TransformOptions.defaultPrice).getD DEFAULT_PRICE

/-- The fixed warning text of `getPrice` (transform.ts line 74). -/
def priceWarning : String :=
  "Price column missing or invalid; fallback to default price."

/-- TS `row.Price ?? row.price` (transform.ts line 72). -/
def priceCellValue (row : RawRow) : Option CellValue :=
  firstSome (lookupCell row "Price") (lookupCell row "price")

/-- TS `getPrice` (transform.ts lines 71-78): parse the price cell; on `null` or
`≤ 0` push a warning and fall back to the default price.  The TS function
mutates its `warnings` array; here it returns the price together with the
updated warning list. -/
def getPrice (row : RawRow) (defaultPrice : ℚ) (warnings : List String) :
    ℚ × List String :=
  match parseNumber (priceCellValue row) with
  | none => (defaultPrice, warnings ++ [priceWarning])
  | some price =>
    if price ≤ 0 then (defaultPrice, warnings ++ [priceWarning])
    else (price, warnings)

/-- One step of the header union (`if (key) headers.add(key)` with a JS
`Set`'s insertion-order semantics): ignore empty keys and duplicates,
append a fresh key. -/
def addHeader (acc : List String) (key : String) : List String :=
  if key.isEmpty then acc
  else if acc.contains key then acc else acc ++ [key]

/-- TS `extractHeaders` (transform.ts lines 80-90): union of the keys of all
rows, first-seen order, empty-string keys dropped (`if (key)`). -/
def extractHeaders (rows : List RawRow) : List String :=
  rows.foldl (fun acc row => row.foldl (fun acc2 kv => addHeader acc2 kv.1) acc) []

/-- TS `identifyColorColumns` (transform.ts lines 92-98): headers that are
non-empty and whose normalization is not a fixed column name. -/
def identifyColorColumns (headers : List String) : List String :=
  headers.filter (fun header =>
    !header.isEmpty && !(FIXED_COLUMNS.contains (normalizeHeader header)))

/-- Whether some header normalizes to `"model"` (transform.ts line 101). -/
def hasModelHeader (headers : List String) : Bool :=
  headers.any (fun header => normalizeHeader header == "model")

/-- TS `ensureModelColumn` (transform.ts lines 100-105): throw
`INVALID_TEMPLATE` when no header normalizes to `"model"`. -/
def ensureModelColumn (headers : List String) : Except TransformError Unit :=
  if hasModelHeader headers then .ok ()
  else .error ⟨"Missing required column \"Model\".", .INVALID_TEMPLATE⟩

/-- TS `row.Model ?? row.model ?? ''`, stringified and trimmed
(transform.ts lines 132-133).  A numeric cell is rendered the way the TS
template literal renders it; for integers this is the plain decimal string
(non-integer rendering is never empty, which is all later code observes). -/
def ratToJsString (q : ℚ) : String :=
  if q.den = 1 then toString q.num else toString q

/-- The resolved, trimmed model name of a raw row. -/
def modelString (row : RawRow) : String :=
  match firstSome (lookupCell row "Model") (lookupCell row "model") with
  | some (.str s) => jsTrim s
  | some (.num q) => jsTrim (ratToJsString q)
  | none => jsTrim ""

/-- Warning for a row without a model name (transform.ts line 136). -/
def missingModelWarning (index : Nat) : String :=
  s!"Row {index + 2}: Missing model name, skipping."

/-- Warning for an unparsable quantity cell (transform.ts line 147). -/
def invalidQtyWarning (index : Nat) (colorColumn : String) : String :=
  s!"Row {index + 2}, column \"{colorColumn}\": Invalid quantity, ignored."

/-- The mutable state of the main loop (transform.ts lines 126-129):
emitted rows, warnings, and the two running totals. -/
structure TState where
  resultRows : List QuotationRow
  warnings : List String
  totalQty : ℚ
  totalAmount : ℚ
deriving DecidableEq, Repr

/-- The initial loop state. -/
def initialState : TState := ⟨[], [], 0, 0⟩

/-- Body of the inner `colorColumns.forEach` (transform.ts lines 142-168):
parse the quantity cell; `null` → warning only; `≤ 0` → silently skip;
otherwise push a quotation row and accumulate the totals. -/
def processCell (model : String) (price : ℚ) (index : Nat) (row : RawRow)
    (st : TState) (colorColumn : String) : TState :=
  match parseNumber (lookupCell row colorColumn) with
  | none =>
    { st with warnings := st.warnings ++ [invalidQtyWarning index colorColumn] }
  | some qty =>
    if qty ≤ 0 then st
    else
      { resultRows := st.resultRows ++
          [{ modelNo := model, categoryName := model, color := jsTrim colorColumn,
             qty := qty, priceUSD := price, amountUSD := round2 (qty * price) }],
        warnings := st.warnings,
        totalQty := st.totalQty + qty,
        totalAmount := st.totalAmount + round2 (qty * price) }

/-- Body of the outer `rows.forEach` (transform.ts lines 131-169): resolve
the model (skip the row with a warning when blank), resolve the price, then
fold the inner loop over the color columns. -/
def processRow (colorColumns : List String) (defaultPrice : ℚ)
    (st : TState) (entry : Nat × RawRow) : TState :=
  let index := entry.1
  let row := entry.2
  let model := modelString row
  if model.isEmpty then
    { st with warnings := st.warnings ++ [missingModelWarning index] }
  else
    let pw := getPrice row defaultPrice st.warnings
    colorColumns.foldl (processCell model pw.1 index row)
      { st with warnings := pw.2 }

/-- The full double loop of `transformMatrixRows`, from the empty state. -/
def runRows (rows : List RawRow) (colorColumns : List String)
    (defaultPrice : ℚ) : TState :=
  rows.enum.foldl (processRow colorColumns defaultPrice) initialState

/-- Lines 171-184 of transform.ts: `EMPTY_RESULT` when nothing was emitted,
otherwise the result with the total amount rounded to 2 decimals. -/
def finishTransform (st : TState) : Except TransformError TransformResult :=
  if st.resultRows.isEmpty then
    .error ⟨"No valid rows produced from worksheet.", .EMPTY_RESULT⟩
  else
    .ok ⟨st.resultRows, ⟨st.totalQty, round2 st.totalAmount⟩, st.warnings⟩

/-- TS `transformMatrixRows` (transform.ts lines 107-185). -/
def transformMatrixRows (rows : List RawRow)
    (options : Option TransformOptions) : Except TransformError TransformResult :=
  if (extractHeaders rows).isEmpty then
    .error ⟨"Could not detect headers in worksheet.", .PARSE_ERROR⟩
  else
    match ensureModelColumn (extractHeaders rows) with
    | .error e => .error e
    | .ok _ =>
      if (identifyColorColumns (extractHeaders rows)).isEmpty then
        .error ⟨"No color columns detected in worksheet.", .INVALID_TEMPLATE⟩
      else
        finishTransform
          (runRows rows (identifyColorColumns (extractHeaders rows))
            (resolveDefaultPrice options))

/-- The state the main loop reaches after all raw rows, with the color
columns and default price resolved exactly as `transformMatrixRows` does. -/
def finalState (rows : List RawRow) (options : Option TransformOptions) : TState :=
  runRows rows (identifyColorColumns (extractHeaders rows))
    (resolveDefaultPrice options)

/-- Whether `getPrice` falls back to the default price for this row:
the price cell is unparsable or parses to a value `≤ 0`. -/
def priceFallsBack (row : RawRow) : Bool :=
  match parseNumber (priceCellValue row) with
  | none => true
  | some p => decide (p ≤ 0)

/-- The price `getPrice` returns for a row, independent of the incoming
warning list. -/
def rowPrice (row : RawRow) (defaultPrice : ℚ) : ℚ :=
  if priceFallsBack row then defaultPrice
  else (parseNumber (priceCellValue row)).getD defaultPrice

/-- The quotation row a single variant cell produces, if any: `none` for an
unparsable or non-positive quantity, otherwise the emitted record. -/
def emitCell (model : String) (price : ℚ) (row : RawRow)
    (colorColumn : String) : Option QuotationRow :=
  match parseNumber (lookupCell row colorColumn) with
  | none => none
  | some qty =>
    if qty ≤ 0 then none
    else some { modelNo := model, categoryName := model,
                color := jsTrim colorColumn, qty := qty, priceUSD := price,
                amountUSD := round2 (qty * price) }

/-- All quotation rows one raw row produces, in color-column order; empty
when the model name is blank. -/
def emitsForRow (colorColumns : List String) (defaultPrice : ℚ)
    (row : RawRow) : List QuotationRow :=
  if (modelString row).isEmpty then []
  else colorColumns.filterMap
    (emitCell (modelString row) (rowPrice row defaultPrice) row)

/-- The invalid-quantity warnings one raw row produces, in color-column
order. -/
def cellWarnings (index : Nat) (row : RawRow) (colorColumns : List String) :
    List String :=
  colorColumns.filterMap (fun c =>
    match parseNumber (lookupCell row c) with
    | none => some (invalidQtyWarning index c)
    | some _ => none)

/-- All warnings one raw row produces: the missing-model warning for a blank
model, otherwise the optional price fallback warning followed by the
invalid-quantity warnings. -/
def rowWarnings (colorColumns : List String) (index : Nat) (row : RawRow) :
    List String :=
  if (modelString row).isEmpty then [missingModelWarning index]
  else (if priceFallsBack row then [priceWarning] else []) ++
    cellWarnings index row colorColumns

/-- Concatenation of the images of a list-valued function, in order. -/
def concatMap {α β : Type} (f : α → List β) : List α → List β
  | [] => []
  | a :: l => f a ++ concatMap f l

/-- First raw row of Scenario A. -/
def scenarioARow1 : RawRow :=
  [("Model", .str "IP 12/12 pro"), ("18#Black", .num 50),
   ("5#Lilac Blue", .str "20"), ("Qty", .num 230), ("Price", .num 0.8),
   ("Amount, usd", .num 184)]

/-- Second raw row of Scenario A. -/
def scenarioARow2 : RawRow :=
  [("Model", .str "IP 12 promax"), ("18#Black", .num 0), ("Red", .num 30),
   ("Qty", .num 150), ("Price", .str "1.2"), ("Amount, usd", .num 120),
   ("Amount", .num 480)]

/-- The Scenario A input. -/
def scenarioARows : List RawRow := [scenarioARow1, scenarioARow2]

/-- The output Scenario A must produce. -/
def scenarioAResult : TransformResult :=
  { rows :=
      [{ modelNo := "IP 12/12 pro", categoryName := "IP 12/12 pro",
         color := "18#Black", qty := 50, priceUSD := 0.8, amountUSD := 40 },
       { modelNo := "IP 12/12 pro", categoryName := "IP 12/12 pro",
         color := "5#Lilac Blue", qty := 20, priceUSD := 0.8, amountUSD := 16 },
       { modelNo := "IP 12 promax", categoryName := "IP 12 promax",
         color := "Red", qty := 30, priceUSD := 1.2, amountUSD := 36 }],
    totals := { totalQty := 100, totalAmount := 92 },
    warnings :=
      [invalidQtyWarning 0 "Red", invalidQtyWarning 1 "5#Lilac Blue"] }

/-- The Scenario B input: a row with no price column. -/
def scenarioBRows : List RawRow :=
  [[("Model", .str "Model X"), ("Black", .num 10)]]

/-- The output Scenario B must produce under `{defaultPrice: 0.9}`. -/
def scenarioBResult : TransformResult :=
  { rows := [{ modelNo := "Model X", categoryName := "Model X",
               color := "Black", qty := 10, priceUSD := 0.9, amountUSD := 9 }],
    totals := { totalQty := 10, totalAmount := 9 },
    warnings := [priceWarning] }

/-- The Scenario D input: the only variant quantity is zero. -/
def scenarioDRows : List RawRow :=
  [[("Model", .str "Model X"), ("Black", .num 0)]]

/-- A header row with no model-like header at all. -/
def noModelRows : List RawRow := [[("Foo", .num 1)]]

/-- A row whose headers are all fixed columns (no variant column). -/
def onlyFixedRows : List RawRow :=
  [[("Model", .str "x"), ("Qty", .num 1)]]

/-- Input exercising exact-key model lookup: the header `"MODEL"` passes the
(normalized) header check, but `row.Model ?? row.model` misses it. -/
def upperModelRows : List RawRow :=
  [[("MODEL", .str "Model X"), ("Black", .num 5)]]

/-- Input for the C7 counterexample: no price column, so the (negative)
default price is used for an emitted row. -/
def badPriceRows : List RawRow :=
  [[("Model", .str "X"), ("Black", .num 5)]]

/-- Options with a negative default price (the TS type allows any number). -/
def badPriceOptions : Option TransformOptions := some ⟨some (-1)⟩

/-- What `transformMatrixRows badPriceRows badPriceOptions` evaluates to:
the emitted row carries `priceUSD = -1`. -/
def badPriceResult : TransformResult :=
  { rows := [{ modelNo := "X", categoryName := "X", color := "Black",
               qty := 5, priceUSD := -1, amountUSD := -5 }],
    totals := { totalQty := 5, totalAmount := -5 },
    warnings := [priceWarning] }

deriving instance DecidableEq for Except

/-- The price `getPrice` returns does not depend on the warning list. -/
theorem getPrice_fst (row : RawRow) (d : ℚ) (w : List String) :
    (getPrice row d w).1 = rowPrice row d := by
  unfold getPrice rowPrice priceFallsBack
  cases h : parseNumber (priceCellValue row) with
  | none => simp
  | some p => by_cases hp : p ≤ 0 <;> simp [hp]

/-- The helper `getPrice` appends exactly the fallback warning, when it falls back. -/
theorem getPrice_snd (row : RawRow) (d : ℚ) (w : List String) :
    (getPrice row d w).2 =
      w ++ (if priceFallsBack row then [priceWarning] else []) := by
  unfold getPrice priceFallsBack
  cases h : parseNumber (priceCellValue row) with
  | none => simp
  | some p => by_cases hp : p ≤ 0 <;> simp [hp]

/-- Effect of the inner color-column loop on the state: it appends the
emitted rows and invalid-quantity warnings and accumulates both totals. -/
theorem processCell_foldl (model : String) (price : ℚ) (index : Nat)
    (row : RawRow) (cols : List String) (st : TState) :
    cols.foldl (processCell model price index row) st =
      ⟨st.resultRows ++ cols.filterMap (emitCell model price row),
       st.warnings ++ cellWarnings index row cols,
       st.totalQty +
         ((cols.filterMap (emitCell model price row)).map QuotationRow.qty).sum,
       st.totalAmount +
         ((cols.filterMap (emitCell model price row)).map
           QuotationRow.amountUSD).sum⟩ := by
  induction cols generalizing st with
  | nil => simp [cellWarnings]
  | cons c cs ih =>
    rw [List.foldl_cons, ih]
    cases h : parseNumber (lookupCell row c) with
    | none =>
      simp [processCell, emitCell, cellWarnings, h, List.filterMap_cons,
        List.append_assoc]
    | some qty =>
      by_cases hq : qty ≤ 0
      · simp [processCell, emitCell, cellWarnings, h, hq, List.filterMap_cons]
      · simp [processCell, emitCell, cellWarnings, h, hq, List.filterMap_cons,
          List.append_assoc, add_assoc]

/-- Effect of one outer-loop iteration on the state. -/
theorem processRow_eq (cols : List String) (d : ℚ) (st : TState)
    (entry : Nat × RawRow) :
    processRow cols d st entry =
      ⟨st.resultRows ++ emitsForRow cols d entry.2,
       st.warnings ++ rowWarnings cols entry.1 entry.2,
       st.totalQty + ((emitsForRow cols d entry.2).map QuotationRow.qty).sum,
       st.totalAmount +
         ((emitsForRow cols d entry.2).map QuotationRow.amountUSD).sum⟩ := by
  unfold processRow emitsForRow rowWarnings
  cases hm : (modelString entry.2).isEmpty with
  | true => simp [hm]
  | false =>
    simp only [hm, Bool.false_eq_true, if_false, processCell_foldl,
      getPrice_fst, getPrice_snd]
    simp [List.append_assoc]

/-- Membership in `concatMap`. -/
theorem mem_concatMap {α β : Type} (f : α → List β) (l : List α) (b : β) :
    b ∈ concatMap f l ↔ ∃ a ∈ l, b ∈ f a := by
  induction l with
  | nil => simp [concatMap]
  | cons a l ih => simp [concatMap, ih]

/-- Effect of the whole outer loop on the state. -/
theorem processRow_foldl (cols : List String) (d : ℚ)
    (l : List (Nat × RawRow)) (st : TState) :
    l.foldl (processRow cols d) st =
      ⟨st.resultRows ++ concatMap (fun e => emitsForRow cols d e.2) l,
       st.warnings ++ concatMap (fun e => rowWarnings cols e.1 e.2) l,
       st.totalQty +
         ((concatMap (fun e => emitsForRow cols d e.2) l).map
           QuotationRow.qty).sum,
       st.totalAmount +
         ((concatMap (fun e => emitsForRow cols d e.2) l).map
           QuotationRow.amountUSD).sum⟩ := by
  induction l generalizing st with
  | nil => simp [concatMap]
  | cons e l ih =>
    rw [List.foldl_cons, processRow_eq, ih]
    simp [concatMap, List.append_assoc, add_assoc]

/-- Evaluating `concatMap` over an enumeration, when the function ignores the index. -/
theorem concatMap_enumFrom {α β : Type} (f : α → List β) (l : List α) :
    ∀ n : Nat,
      concatMap (fun e => f e.2) (List.enumFrom n l) = concatMap f l := by
  induction l with
  | nil => intro n; rfl
  | cons a l ih => intro n; simp [List.enumFrom, concatMap, ih]

/-- The loop state after all rows, in closed form. -/
theorem runRows_eq (rows : List RawRow) (cols : List String) (d : ℚ) :
    runRows rows cols d =
      ⟨concatMap (emitsForRow cols d) rows,
       concatMap (fun e => rowWarnings cols e.1 e.2) rows.enum,
       ((concatMap (emitsForRow cols d) rows).map QuotationRow.qty).sum,
       ((concatMap (emitsForRow cols d) rows).map QuotationRow.amountUSD).sum⟩ := by
  unfold runRows initialState
  rw [processRow_foldl]
  have he : concatMap (fun e => emitsForRow cols d e.2) rows.enum =
      concatMap (emitsForRow cols d) rows := by
    unfold List.enum
    exact concatMap_enumFrom (emitsForRow cols d) rows 0
  simp [he]

/-- A successful transform returns exactly the final loop state's rows,
warnings, and (rounded) totals. -/
theorem transformMatrixRows_ok_inv (rows : List RawRow)
    (options : Option TransformOptions) (res : TransformResult)
    (h : transformMatrixRows rows options = .ok res) :
    res = ⟨(finalState rows options).resultRows,
           ⟨(finalState rows options).totalQty,
            round2 (finalState rows options).totalAmount⟩,
           (finalState rows options).warnings⟩ := by
  unfold transformMatrixRows at h
  split at h
  · exact absurd h (by simp)
  · split at h
    · exact absurd h (by simp)
    · split at h
      · exact absurd h (by simp)
      · unfold finishTransform at h
        split at h
        · exact absurd h (by simp)
        · unfold finalState
          exact (Except.ok.inj h).symm

/-- When all three header checks pass, the transform is `finishTransform`
of the final loop state. -/
theorem transformMatrixRows_success (rows : List RawRow)
    (options : Option TransformOptions)
    (h1 : (extractHeaders rows).isEmpty = false)
    (h2 : hasModelHeader (extractHeaders rows) = true)
    (h3 : (identifyColorColumns (extractHeaders rows)).isEmpty = false) :
    transformMatrixRows rows options = finishTransform (finalState rows options) := by
  unfold transformMatrixRows ensureModelColumn finalState
  simp [h1, h2, h3]

/-- What a successfully emitted cell satisfies: positive quantity, the
resolved price, and the rounded amount. -/
theorem emitCell_some (model : String) (price : ℚ) (row : RawRow)
    (colorColumn : String) (r : QuotationRow)
    (h : emitCell model price row colorColumn = some r) :
    0 < r.qty ∧ r.priceUSD = price ∧ r.amountUSD = round2 (r.qty * price) := by
  unfold emitCell at h
  cases hp : parseNumber (lookupCell row colorColumn) with
  | none => rw [hp] at h; exact absurd h (by simp)
  | some qty =>
    rw [hp] at h
    have h2 : (if qty ≤ 0 then (none : Option QuotationRow)
        else some ⟨model, model, jsTrim colorColumn, qty, price,
          round2 (qty * price)⟩) = some r := h
    by_cases hq : qty ≤ 0
    · rw [if_pos hq] at h2; exact absurd h2 (by simp)
    · rw [if_neg hq] at h2
      have h3 := Option.some.inj h2
      subst h3
      exact ⟨lt_of_not_le hq, rfl, rfl⟩

/-- The resolved row price is positive whenever the default price is. -/
theorem rowPrice_pos (row : RawRow) (d : ℚ) (hd : 0 < d) :
    0 < rowPrice row d := by
  unfold rowPrice priceFallsBack
  cases h : parseNumber (priceCellValue row) with
  | none => simpa using hd
  | some p =>
    by_cases hp : p ≤ 0
    · simpa [hp] using hd
    · simpa [hp] using lt_of_not_le hp

/-- A row that every emitted quotation row of a successful transform came
from some raw row's emission list. -/
theorem mem_ok_rows (rows : List RawRow) (options : Option TransformOptions)
    (res : TransformResult) (h : transformMatrixRows rows options = .ok res)
    (r : QuotationRow) (hr : r ∈ res.rows) :
    ∃ row ∈ rows,
      r ∈ emitsForRow (identifyColorColumns (extractHeaders rows))
        (resolveDefaultPrice options) row := by
  have hres := transformMatrixRows_ok_inv rows options res h
  rw [hres] at hr
  simp only [finalState, runRows_eq] at hr
  exact (mem_concatMap _ _ _).mp hr

/-- Membership in a row's emission list comes from some color column's
emitted cell. -/
theorem mem_emitsForRow (cols : List String) (d : ℚ) (row : RawRow)
    (r : QuotationRow) (hr : r ∈ emitsForRow cols d row) :
    ∃ c ∈ cols, emitCell (modelString row) (rowPrice row d) row c = some r := by
  unfold emitsForRow at hr
  cases hm : (modelString row).isEmpty with
  | true => rw [hm] at hr; exact absurd hr (by simp)
  | false =>
    rw [hm] at hr
    simp only [Bool.false_eq_true, if_false] at hr
    obtain ⟨c, hc, he⟩ := List.mem_filterMap.mp hr
    exact ⟨c, hc, he⟩

/-- Adding an empty key never changes the header accumulator. -/
theorem addHeader_empty (acc : List String) : addHeader acc "" = acc := rfl

/-- A row all of whose keys are empty contributes nothing to the header
union. -/
theorem foldl_addHeader_empty_keys :
    ∀ (row : RawRow), (∀ kv ∈ row, kv.1 = "") →
    ∀ acc, row.foldl (fun acc2 kv => addHeader acc2 kv.1) acc = acc := by
  intro row
  induction row with
  | nil => intro _ acc; rfl
  | cons kv r ih =>
    intro h acc
    rw [List.foldl_cons, h kv (List.mem_cons_self kv r), addHeader_empty]
    exact ih (fun kv2 hk => h kv2 (List.mem_cons_of_mem kv hk)) acc

/-- Rows all of whose keys are empty leave the header union unchanged. -/
theorem foldl_headers_empty_keys :
    ∀ (rows : List RawRow), (∀ row ∈ rows, ∀ kv ∈ row, kv.1 = "") →
    ∀ acc,
      rows.foldl
        (fun acc row => row.foldl (fun acc2 kv => addHeader acc2 kv.1) acc)
        acc = acc := by
  intro rows
  induction rows with
  | nil => intro _ acc; rfl
  | cons row rs ih =>
    intro h acc
    rw [List.foldl_cons,
      foldl_addHeader_empty_keys row (h row (List.mem_cons_self row rs)) acc]
    exact ih (fun r hr => h r (List.mem_cons_of_mem row hr)) acc

/-- The check `hasModelHeader` is false when no header normalizes to `"model"`. -/
theorem hasModelHeader_eq_false (headers : List String)
    (h : ∀ x ∈ headers, normalizeHeader x ≠ "model") :
    hasModelHeader headers = false := by
  unfold hasModelHeader
  rw [List.any_eq_false]
  intro x hx
  simpa using h x hx

/-- The check `hasModelHeader` is true when some header normalizes to `"model"`. -/
theorem hasModelHeader_eq_true (headers : List String)
    (h : ∃ x ∈ headers, normalizeHeader x = "model") :
    hasModelHeader headers = true := by
  unfold hasModelHeader
  rw [List.any_eq_true]
  obtain ⟨x, hx, hxm⟩ := h
  exact ⟨x, hx, by simp [hxm]⟩

/-- No color column remains when every header normalizes to a fixed
column name. -/
theorem identifyColorColumns_eq_nil (headers : List String)
    (h : ∀ x ∈ headers, normalizeHeader x ∈ FIXED_COLUMNS) :
    identifyColorColumns headers = [] := by
  unfold identifyColorColumns
  rw [List.filter_eq_nil_iff]
  intro x hx
  simp [h x hx]

/-- The model resolves to the empty string when neither exact key `"Model"`
nor `"model"` is present. -/
theorem modelString_of_no_model_key (row : RawRow)
    (h1 : lookupCell row "Model" = none) (h2 : lookupCell row "model" = none) :
    modelString row = "" := by
  unfold modelString
  rw [h1, h2]
  rfl

/-- C1: `transformMatrixRows` on the two-row Scenario A input with default
options returns exactly 3 quotation rows; the `"5#Lilac Blue"` row has
`qty = 20`, `priceUSD = 0.8`, `amountUSD = 16`; the `"Red"` row has
`qty = 30`, `priceUSD = 1.2`, `amountUSD = 36`; and the totals are
`{totalQty := 100, totalAmount := 92}`. -/
theorem C1_scenarioA :
    transformMatrixRows scenarioARows none = .ok scenarioAResult ∧
    scenarioAResult.rows.length = 3 ∧
    ((scenarioAResult.rows.filter (fun r => r.color == "5#Lilac Blue")).map
      (fun r => (r.qty, r.priceUSD, r.amountUSD))) = [(20, 0.8, 16)] ∧
    ((scenarioAResult.rows.filter (fun r => r.color == "Red")).map
      (fun r => (r.qty, r.priceUSD, r.amountUSD))) = [(30, 1.2, 36)] ∧
    scenarioAResult.totals = ⟨100, 92⟩ := by
  refine ⟨?_, ?_, ?_, ?_, ?_⟩ <;> with_unfolding_all decide

/-- C2: every row of a successful `transformMatrixRows` result has
`qty > 0`; a variant cell that parses to a quantity `≤ 0` leaves the loop
state unchanged (no row, no warning); an unparsable variant cell emits no
row but appends exactly the warning naming the row (as `index + 2`) and the
column. -/
theorem C2_qty_invariants :
    (∀ (rows : List RawRow) (options : Option TransformOptions)
        (res : TransformResult),
        transformMatrixRows rows options = .ok res →
        ∀ r ∈ res.rows, 0 < r.qty) ∧
    (∀ (model : String) (price : ℚ) (index : Nat) (row : RawRow) (st : TState)
        (colorColumn : String) (qty : ℚ),
        parseNumber (lookupCell row colorColumn) = some qty → qty ≤ 0 →
        processCell model price index row st colorColumn = st) ∧
    (∀ (model : String) (price : ℚ) (index : Nat) (row : RawRow) (st : TState)
        (colorColumn : String),
        parseNumber (lookupCell row colorColumn) = none →
        processCell model price index row st colorColumn =
          { st with warnings :=
              st.warnings ++ [invalidQtyWarning index colorColumn] }) := by
  refine ⟨?_, ?_, ?_⟩
  · intro rows options res h r hr
    obtain ⟨row, _, hmem⟩ := mem_ok_rows rows options res h r hr
    obtain ⟨c, _, he⟩ := mem_emitsForRow _ _ _ _ hmem
    exact (emitCell_some _ _ _ _ _ he).1
  · intro model price index row st colorColumn qty h1 h2
    unfold processCell
    rw [h1]
    simp [h2]
  · intro model price index row st colorColumn h1
    unfold processCell
    rw [h1]

/-- C2 witness: the Scenario A `"18#Black"` row has positive quantity, and
the two cell-level facts at concrete cells. -/
theorem C2_qty_invariants_witness :
    0 < (⟨"IP 12/12 pro", "IP 12/12 pro", "18#Black", 50, 0.8, 40⟩ :
      QuotationRow).qty ∧
    processCell "M" 1 0 [("C", CellValue.num 0)] initialState "C" =
      initialState ∧
    processCell "M" 1 0 [] initialState "C" =
      { initialState with warnings :=
          initialState.warnings ++ [invalidQtyWarning 0 "C"] } :=
  ⟨C2_qty_invariants.1 scenarioARows none scenarioAResult
      (by with_unfolding_all decide) _ (by with_unfolding_all decide),
   C2_qty_invariants.2.1 "M" 1 0 [("C", CellValue.num 0)] initialState "C" 0
      (by with_unfolding_all decide) (by with_unfolding_all decide),
   C2_qty_invariants.2.2 "M" 1 0 [] initialState "C"
      (by with_unfolding_all decide)⟩

/-- C3: for every successful output, `totals.totalQty` is the sum of the
emitted rows' `qty` and `totals.totalAmount` is the sum of the (already
rounded) per-row `amountUSD`, rounded again at the total level. -/
theorem C3_totals :
    ∀ (rows : List RawRow) (options : Option TransformOptions)
      (res : TransformResult),
      transformMatrixRows rows options = .ok res →
      res.totals.totalQty = (res.rows.map QuotationRow.qty).sum ∧
      res.totals.totalAmount =
        round2 ((res.rows.map QuotationRow.amountUSD).sum) := by
  intro rows options res h
  rw [transformMatrixRows_ok_inv rows options res h]
  simp [finalState, runRows_eq]

/-- C3 witness: the totals identity at the concrete Scenario A output. -/
theorem C3_totals_witness :
    scenarioAResult.totals.totalQty =
      (scenarioAResult.rows.map QuotationRow.qty).sum ∧
    scenarioAResult.totals.totalAmount =
      round2 ((scenarioAResult.rows.map QuotationRow.amountUSD).sum) :=
  C3_totals scenarioARows none scenarioAResult (by with_unfolding_all decide)

/-- C4: on a non-empty header union, `transformMatrixRows` fails with
`INVALID_TEMPLATE` when no header normalizes to `"model"`, and also fails
with `INVALID_TEMPLATE` when a model header exists but every header
normalizes into the fixed-column set, leaving no variant column. -/
theorem C4_template_errors :
    ∀ (rows : List RawRow) (options : Option TransformOptions),
      extractHeaders rows ≠ [] →
      ((∀ x ∈ extractHeaders rows, normalizeHeader x ≠ "model") →
        transformMatrixRows rows options =
          .error ⟨"Missing required column \"Model\".", .INVALID_TEMPLATE⟩) ∧
      ((∃ x ∈ extractHeaders rows, normalizeHeader x = "model") →
        (∀ x ∈ extractHeaders rows, normalizeHeader x ∈ FIXED_COLUMNS) →
        transformMatrixRows rows options =
          .error ⟨"No color columns detected in worksheet.",
            .INVALID_TEMPLATE⟩) := by
  intro rows options hne
  have hem : (extractHeaders rows).isEmpty = false :=
    List.isEmpty_eq_false.mpr hne
  constructor
  · intro hno
    have hf := hasModelHeader_eq_false _ hno
    unfold transformMatrixRows ensureModelColumn
    simp [hem, hf]
  · intro hex hfix
    have ht := hasModelHeader_eq_true _ hex
    have hcols := identifyColorColumns_eq_nil _ hfix
    unfold transformMatrixRows ensureModelColumn
    simp [hem, ht, hcols]

/-- C4 witness: the two `INVALID_TEMPLATE` failures at concrete inputs. -/
theorem C4_template_errors_witness :
    transformMatrixRows noModelRows none =
      .error ⟨"Missing required column \"Model\".", .INVALID_TEMPLATE⟩ ∧
    transformMatrixRows onlyFixedRows none =
      .error ⟨"No color columns detected in worksheet.", .INVALID_TEMPLATE⟩ :=
  ⟨(C4_template_errors noModelRows none (by with_unfolding_all decide)).1
      (by with_unfolding_all decide),
   (C4_template_errors onlyFixedRows none (by with_unfolding_all decide)).2
      (by with_unfolding_all decide) (by with_unfolding_all decide)⟩

/-- C5: once the header checks pass, the transform fails with
`EMPTY_RESULT` exactly when the loop emitted zero rows, and otherwise
returns the emitted rows, the totals (total amount rounded to 2 decimals),
and the full warning list; Scenario D fails with `EMPTY_RESULT`. -/
theorem C5_empty_result :
    (∀ (rows : List RawRow) (options : Option TransformOptions),
      extractHeaders rows ≠ [] →
      hasModelHeader (extractHeaders rows) = true →
      identifyColorColumns (extractHeaders rows) ≠ [] →
      ((transformMatrixRows rows options =
          .error ⟨"No valid rows produced from worksheet.", .EMPTY_RESULT⟩ ↔
        (finalState rows options).resultRows = []) ∧
       ((finalState rows options).resultRows ≠ [] →
        transformMatrixRows rows options =
          .ok ⟨(finalState rows options).resultRows,
               ⟨(finalState rows options).totalQty,
                round2 (finalState rows options).totalAmount⟩,
               (finalState rows options).warnings⟩))) ∧
    transformMatrixRows scenarioDRows none =
      .error ⟨"No valid rows produced from worksheet.", .EMPTY_RESULT⟩ := by
  constructor
  · intro rows options h1 h2 h3
    have hs := transformMatrixRows_success rows options
      (List.isEmpty_eq_false.mpr h1) h2 (List.isEmpty_eq_false.mpr h3)
    constructor
    · rw [hs]
      unfold finishTransform
      cases hre : (finalState rows options).resultRows with
      | nil => simp [hre]
      | cons a l => simp [hre]
    · intro hne
      rw [hs]
      unfold finishTransform
      simp [List.isEmpty_eq_false.mpr hne]
  · with_unfolding_all decide

/-- C5 witness: the success branch at the concrete Scenario B input. -/
theorem C5_empty_result_witness :
    transformMatrixRows scenarioBRows (some ⟨some 0.9⟩) =
      .ok ⟨(finalState scenarioBRows (some ⟨some 0.9⟩)).resultRows,
           ⟨(finalState scenarioBRows (some ⟨some 0.9⟩)).totalQty,
            round2 (finalState scenarioBRows (some ⟨some 0.9⟩)).totalAmount⟩,
           (finalState scenarioBRows (some ⟨some 0.9⟩)).warnings⟩ :=
  (C5_empty_result.1 scenarioBRows (some ⟨some 0.9⟩)
      (by with_unfolding_all decide) (by with_unfolding_all decide)
      (by with_unfolding_all decide)).2 (by with_unfolding_all decide)

/-- C6: when the price cell is unparsable or parses to a value `≤ 0`,
`getPrice` appends the fallback warning and returns the default price; the
default defaults to `0.8` when `options.defaultPrice` is unset; Scenario B
with `{defaultPrice := 0.9}` yields a row with `priceUSD = 0.9` and the
fallback warning. -/
theorem C6_price_fallback :
    (∀ (row : RawRow) (d : ℚ) (w : List String),
      (parseNumber (priceCellValue row) = none ∨
        ∃ p, parseNumber (priceCellValue row) = some p ∧ p ≤ 0) →
      getPrice row d w = (d, w ++ [priceWarning])) ∧
    resolveDefaultPrice none = 0.8 ∧
    (∀ opts : TransformOptions, opts.defaultPrice = none →
      resolveDefaultPrice (some opts) = 0.8) ∧
    transformMatrixRows scenarioBRows (some ⟨some 0.9⟩) = .ok scenarioBResult ∧
    scenarioBResult.rows.map QuotationRow.priceUSD = [0.9] ∧
    priceWarning ∈ scenarioBResult.warnings := by
  refine ⟨?_, rfl, ?_, ?_, ?_, ?_⟩
  · intro row d w hcond
    unfold getPrice
    rcases hcond with hnone | ⟨p, hp, hple⟩
    · rw [hnone]
    · rw [hp]
      simp [hple]
  · intro opts h
    simp [resolveDefaultPrice, h, DEFAULT_PRICE]
  · with_unfolding_all decide
  · with_unfolding_all decide
  · with_unfolding_all decide

/-- C6 witness: the fallback at a concrete priceless row, and the default
price of explicitly-unset options. -/
theorem C6_price_fallback_witness :
    getPrice [("Model", CellValue.str "X")] 1 [] = (1, [] ++ [priceWarning]) ∧
    resolveDefaultPrice (some ⟨none⟩) = 0.8 :=
  ⟨C6_price_fallback.1 [("Model", CellValue.str "X")] 1 []
      (Or.inl (by with_unfolding_all decide)),
   C6_price_fallback.2.2.1 ⟨none⟩ rfl⟩

/-- C7 counterexample: the claim quantifies over every options value, but
with `defaultPrice = -1` the transform succeeds on `badPriceRows` while the
emitted row has `priceUSD = -1 ≤ 0`. -/
theorem C7_counterexample :
    ¬ (∀ (rows : List RawRow) (options : Option TransformOptions)
        (res : TransformResult),
        transformMatrixRows rows options = .ok res →
        ∀ r ∈ res.rows,
          0 < r.priceUSD ∧ r.amountUSD = round2 (r.qty * r.priceUSD)) := by
  intro hclaim
  have hok : transformMatrixRows badPriceRows badPriceOptions =
      .ok badPriceResult := by
    with_unfolding_all decide
  have hmem : (⟨"X", "X", "Black", 5, -1, -5⟩ : QuotationRow) ∈
      badPriceResult.rows := by
    with_unfolding_all decide
  have hpos := (hclaim badPriceRows badPriceOptions badPriceResult hok _ hmem).1
  have hng : ¬ (0 < (-1 : ℚ)) := by norm_num
  exact hng hpos

/-- C7 amended: for every input and every options value, every row of a
successful result satisfies `amountUSD = round2 (qty * priceUSD)`; and
whenever the resolved default price is positive (in particular for unset or
positive `defaultPrice`), it also has `priceUSD > 0`. -/
theorem C7_amended_price_invariant :
    ∀ (rows : List RawRow) (options : Option TransformOptions)
      (res : TransformResult),
      transformMatrixRows rows options = .ok res →
      ∀ r ∈ res.rows,
        (0 < resolveDefaultPrice options → 0 < r.priceUSD) ∧
        r.amountUSD = round2 (r.qty * r.priceUSD) := by
  intro rows options res h r hr
  obtain ⟨row, _, hmem⟩ := mem_ok_rows rows options res h r hr
  obtain ⟨c, _, he⟩ := mem_emitsForRow _ _ _ _ hmem
  obtain ⟨_, hpr, ham⟩ := emitCell_some _ _ _ _ _ he
  constructor
  · intro hd
    rw [hpr]
    exact rowPrice_pos row _ hd
  · rw [ham, hpr]

/-- C7 amended witness: the invariant at the concrete Scenario B output
row, and the unconditional amount identity also at the negative-default
output row. -/
theorem C7_amended_price_invariant_witness :
    0 < (⟨"Model X", "Model X", "Black", 10, 0.9, 9⟩ :
      QuotationRow).priceUSD ∧
    (⟨"Model X", "Model X", "Black", 10, 0.9, 9⟩ : QuotationRow).amountUSD =
      round2 ((⟨"Model X", "Model X", "Black", 10, 0.9, 9⟩ :
          QuotationRow).qty *
        (⟨"Model X", "Model X", "Black", 10, 0.9, 9⟩ :
          QuotationRow).priceUSD) ∧
    (⟨"X", "X", "Black", 5, -1, -5⟩ : QuotationRow).amountUSD =
      round2 ((⟨"X", "X", "Black", 5, -1, -5⟩ : QuotationRow).qty *
        (⟨"X", "X", "Black", 5, -1, -5⟩ : QuotationRow).priceUSD) := by
  have hB := C7_amended_price_invariant scenarioBRows (some ⟨some 0.9⟩)
    scenarioBResult (by with_unfolding_all decide)
    ⟨"Model X", "Model X", "Black", 10, 0.9, 9⟩ (by with_unfolding_all decide)
  have hN := C7_amended_price_invariant badPriceRows badPriceOptions
    badPriceResult (by with_unfolding_all decide)
    ⟨"X", "X", "Black", 5, -1, -5⟩ (by with_unfolding_all decide)
  exact ⟨hB.1 (by with_unfolding_all decide), hB.2, hN.2⟩

/-- C8: the rows of every successful result are exactly the concatenation,
over raw rows in input order, of that row's emissions over the variant
columns in first-seen order — a deterministic function of the input. -/
theorem C8_row_order :
    ∀ (rows : List RawRow) (options : Option TransformOptions)
      (res : TransformResult),
      transformMatrixRows rows options = .ok res →
      res.rows =
        concatMap
          (emitsForRow (identifyColorColumns (extractHeaders rows))
            (resolveDefaultPrice options)) rows := by
  intro rows options res h
  rw [transformMatrixRows_ok_inv rows options res h]
  simp [finalState, runRows_eq]

/-- C8 witness: the order decomposition at the concrete Scenario A input. -/
theorem C8_row_order_witness :
    scenarioAResult.rows =
      concatMap
        (emitsForRow (identifyColorColumns (extractHeaders scenarioARows))
          (resolveDefaultPrice none)) scenarioARows :=
  C8_row_order scenarioARows none scenarioAResult (by with_unfolding_all decide)

/-- C9: when every row has only empty-string keys (including the empty
input), the header union is empty and `transformMatrixRows` fails with
`PARSE_ERROR` and the header-detection message, before any model or
variant-column check. -/
theorem C9_headerless_parse_error :
    ∀ (rows : List RawRow) (options : Option TransformOptions),
      (∀ row ∈ rows, ∀ kv ∈ row, kv.1 = "") →
      transformMatrixRows rows options =
        .error ⟨"Could not detect headers in worksheet.", .PARSE_ERROR⟩ := by
  intro rows options h
  have hz : extractHeaders rows = [] := by
    unfold extractHeaders
    exact foldl_headers_empty_keys rows h []
  unfold transformMatrixRows
  simp [hz]

/-- C9 witness: the `PARSE_ERROR` at a concrete empty-keyed input. -/
theorem C9_headerless_parse_error_witness :
    transformMatrixRows [[("", CellValue.num 1)]] none =
      .error ⟨"Could not detect headers in worksheet.", .PARSE_ERROR⟩ :=
  C9_headerless_parse_error [[("", CellValue.num 1)]] none
    (by with_unfolding_all decide)

/-- C10: model and price lookups are exact-key only while header
classification is normalized: a row without exact `"Model"`/`"model"` keys
is skipped with the missing-model warning; a row without exact
`"Price"`/`"price"` keys falls back to the default price with a warning; a
`"PRICE"` header is never a variant column; and the concrete `"MODEL"`
input passes the header check yet fails with `EMPTY_RESULT`. -/
theorem C10_exact_key_lookup :
    (∀ (cols : List String) (d : ℚ) (st : TState) (entry : Nat × RawRow),
      lookupCell entry.2 "Model" = none → lookupCell entry.2 "model" = none →
      processRow cols d st entry =
        { st with warnings := st.warnings ++ [missingModelWarning entry.1] }) ∧
    (∀ (row : RawRow) (d : ℚ) (w : List String),
      lookupCell row "Price" = none → lookupCell row "price" = none →
      getPrice row d w = (d, w ++ [priceWarning])) ∧
    (∀ headers : List String, "PRICE" ∉ identifyColorColumns headers) ∧
    hasModelHeader (extractHeaders upperModelRows) = true ∧
    transformMatrixRows upperModelRows none =
      .error ⟨"No valid rows produced from worksheet.", .EMPTY_RESULT⟩ := by
  refine ⟨?_, ?_, ?_, ?_, ?_⟩
  · intro cols d st entry h1 h2
    have hm := modelString_of_no_model_key entry.2 h1 h2
    unfold processRow
    simp only [hm]
    rfl
  · intro row d w h1 h2
    unfold getPrice priceCellValue
    rw [h1, h2]
    rfl
  · intro headers hmem
    have hpred := (List.mem_filter.mp hmem).2
    have hfix : normalizeHeader "PRICE" ∈ FIXED_COLUMNS := by
      with_unfolding_all decide
    simp [hfix] at hpred
  · with_unfolding_all decide
  · with_unfolding_all decide

/-- C10 witness: the exact-key lookups at concrete rows. -/
theorem C10_exact_key_lookup_witness :
    processRow ["Black"] 1 initialState (0, [("MODEL", CellValue.str "X")]) =
      { initialState with warnings :=
          initialState.warnings ++ [missingModelWarning 0] } ∧
    getPrice [("PRICE", CellValue.num 2)] 1 [] = (1, [] ++ [priceWarning]) :=
  ⟨C10_exact_key_lookup.1 ["Black"] 1 initialState
      (0, [("MODEL", CellValue.str "X")])
      (by with_unfolding_all decide) (by with_unfolding_all decide),
   C10_exact_key_lookup.2.1 [("PRICE", CellValue.num 2)] 1 []
      (by with_unfolding_all decide) (by with_unfolding_all decide)⟩

